import Mathlib

/-
Verification of the health-scoring and synthetic-telemetry core of the
fog-network-monitoring repository (src/core/health_calculator.py,
src/core/node_dispatcher.py, src/utils/node_utils.py).

Modelling conventions, used throughout:
* Python floats are idealised as exact rationals (ℚ); every arithmetic
  identity below is exact, hence holds a fortiori "within floating-point
  tolerance".
* Python dicts keyed by node id are modelled as functions
  String → Option _ (None = key absent), string-keyed literal dicts as
  if-chains on the key, mirroring dict.get with its default.
* Python round(x, d) (round-half-to-even on the scaled value) is modelled
  exactly by roundHalfEven below.
* Raising an exception is modelled by an Option-valued function returning
  none; each such none is annotated with the exception the source raises.
-/

namespace FogMonitor

/-- Python round-half-to-even of a rational to an integer. -/
def roundHalfEven (x : ℚ) : ℤ :=
  let f := ⌊x⌋
  let r := x - f
  if r < 1/2 then f
  else if 1/2 < r then f + 1
  else if f % 2 = 0 then f else f + 1

/-- Python round(x, d): round to d decimal places, ties to even. -/
def roundq (d : ℕ) (x : ℚ) : ℚ := (roundHalfEven (x * 10 ^ d) : ℚ) / 10 ^ d

theorem roundHalfEven_ge (x : ℚ) : (roundHalfEven x : ℚ) ≥ x - 1/2 := by
  unfold roundHalfEven
  have hf : (⌊x⌋ : ℚ) > x - 1 := Int.sub_one_lt_floor x
  have hf' : (⌊x⌋ : ℚ) ≤ x := Int.floor_le x
  dsimp only
  split_ifs <;> push_cast <;> linarith

theorem roundq_ge (d : ℕ) (x : ℚ) : roundq d x ≥ x - 1 / (2 * 10 ^ d) := by
  unfold roundq
  have h10 : (0:ℚ) < 10 ^ d := by positivity
  have h := roundHalfEven_ge (x * 10 ^ d)
  rw [ge_iff_le, le_div_iff₀ h10]
  have hexp : (x - 1 / (2 * 10 ^ d)) * 10 ^ d = x * 10 ^ d - 1/2 := by
    field_simp
    ring
  rw [hexp]
  linarith

/-! ## src/core/health_calculator.py — NodeHealthCalculator

Per-tier thresholds, weights and criticality multiplier
(`self.tier_config`, lines 16–45 of health_calculator.py). -/

structure TierCfg where
  cpu_threshold : ℚ
  plr_threshold : ℚ
  rtt_threshold : ℚ
  w_cpu : ℚ
  w_plr : ℚ
  w_rtt : ℚ
  criticality_multiplier : ℚ

def cfgL1 : TierCfg := ⟨70, 1/100, 100, 4/10, 35/100, 25/100, 3/2⟩

def cfgL2 : TierCfg := ⟨75, 2/100, 120, 35/100, 4/10, 25/100, 13/10⟩

def cfgL3 : TierCfg := ⟨80, 3/100, 150, 3/10, 4/10, 3/10, 11/10⟩

def cfgL4 : TierCfg := ⟨85, 5/100, 200, 25/100, 45/100, 3/10, 1⟩

/-- `self.tier_config.get(tier, self.tier_config["L4"])`: the literal dict
modelled as an if-chain on the key, unknown tiers fall back to L4. -/
def tier_config_get (tier : String) : TierCfg :=
  if tier = "L1" then cfgL1
  else if tier = "L2" then cfgL2
  else if tier = "L3" then cfgL3
  else if tier = "L4" then cfgL4
  else cfgL4

/-- `self.anomaly_impact.get(anomaly_type, 0.5)` (lines 48–60, 149):
the 11-key literal dict, with the dict.get fallback 0.5. -/
def anomaly_impact_get (t : String) : ℚ :=
  if t = "none" then 1
  else if t = "overload" then 2/10
  else if t = "silence" then 0
  else if t = "routing_loop" then 1/10
  else if t = "fibre_cut" then 0
  else if t = "drift" then 6/10
  else if t = "intermittent_loss" then 4/10
  else if t = "latency_spike" then 7/10
  else if t = "throughput_drop" then 5/10
  else if t = "offline" then 0
  else if t = "spike" then 3/10
  else 1/2

/-- The 11 keys of `self.anomaly_impact`. -/
def anomaly_impact_keys : List String :=
  ["none", "overload", "silence", "routing_loop", "fibre_cut", "drift",
   "intermittent_loss", "latency_spike", "throughput_drop", "offline", "spike"]

/-- `NodeHealthCalculator._get_node_tier` (lines 81–85):
`node_id.split("_")[0]` if the id starts with "L" and contains "_",
else "L4".  The split head is the whole segment before the first "_". -/
def _get_node_tier (node_id : String) : String :=
  if node_id.toList.head? = some 'L' ∧ '_' ∈ node_id.toList
  then String.mk (node_id.toList.takeWhile (fun c => c ≠ '_'))
  else "L4"

/-- `NodeHealthCalculator._calculate_metric_scores` (lines 87–100). -/
def _calculate_metric_scores (cpu plr rtt : ℚ) (tier : String) : ℚ × ℚ × ℚ :=
  let config := tier_config_get tier
  let cpu_score := max 0 (min 100 (100 - cpu / config.cpu_threshold * 100))
  let plr_score := max 0 (min 100 (100 - plr / config.plr_threshold * 100))
  let rtt_score := max 0 (min 100 (100 - rtt / config.rtt_threshold * 100))
  (cpu_score, plr_score, rtt_score)

/-- The criticality column of data/node_list.csv, read through
`self.node_metadata` as a lookup from node id to its criticality string;
an empty DataFrame or an id with no row are both the `none` case. -/
abbrev NodeMetadata := List (String × String)

/-- `NodeHealthCalculator._calculate_adaptive_threshold` (lines 102–132). -/
def _calculate_adaptive_threshold (node_metadata : NodeMetadata)
    (node_id tier anomaly_type : String) : ℚ :=
  let config := tier_config_get tier
  let base_threshold : ℚ := 60
  let tier_adjustment := config.criticality_multiplier * 10
  let anomaly_adjustment : ℚ := if anomaly_type ≠ "none" then -20 else 0
  let node_adjustment : ℚ :=
    match node_metadata.lookup node_id with
    | none => 0
    | some criticality =>
      if criticality = "Mission_Critical" then 15
      else if criticality = "Ultra_High" then 12
      else if criticality = "High" then 8
      else if criticality = "Medium" then 4
      else 0
  let threshold := base_threshold + tier_adjustment + anomaly_adjustment + node_adjustment
  max 20 (min 95 threshold)

/-- `NodeHealthCalculator._calculate_weighted_health_score` (lines 134–152). -/
def _calculate_weighted_health_score (cpu plr rtt : ℚ) (tier anomaly_type : String) : ℚ :=
  let config := tier_config_get tier
  let s := _calculate_metric_scores cpu plr rtt tier
  let weighted_score := s.1 * config.w_cpu + s.2.1 * config.w_plr + s.2.2 * config.w_rtt
  let anomaly_factor := anomaly_impact_get anomaly_type
  let final_score := weighted_score * anomaly_factor
  max 0 (min 100 final_score)

/-- Each tier configuration the getter can return has positive thresholds. -/
theorem tier_config_get_pos (tier : String) :
    0 < (tier_config_get tier).cpu_threshold ∧
    0 < (tier_config_get tier).plr_threshold ∧
    0 < (tier_config_get tier).rtt_threshold := by
  unfold tier_config_get
  split
  · exact ⟨by norm_num [cfgL1], by norm_num [cfgL1], by norm_num [cfgL1]⟩
  · split
    · exact ⟨by norm_num [cfgL2], by norm_num [cfgL2], by norm_num [cfgL2]⟩
    · split
      · exact ⟨by norm_num [cfgL3], by norm_num [cfgL3], by norm_num [cfgL3]⟩
      · split <;>
          exact ⟨by norm_num [cfgL4], by norm_num [cfgL4], by norm_num [cfgL4]⟩

/-- C2: for every cpu, plr, rtt and tier, each metric subscore of
`_calculate_metric_scores` equals clamp(100 − (value/threshold)·100, 0, 100)
with the tier's configured threshold; each subscore lies in [0,100]; a value
equal to the tier threshold scores 0, and a value of 0 scores 100. -/
theorem metric_subscores_clamped (cpu plr rtt : ℚ) (tier : String) :
    (_calculate_metric_scores cpu plr rtt tier =
      (max 0 (min 100 (100 - cpu / (tier_config_get tier).cpu_threshold * 100)),
       max 0 (min 100 (100 - plr / (tier_config_get tier).plr_threshold * 100)),
       max 0 (min 100 (100 - rtt / (tier_config_get tier).rtt_threshold * 100)))) ∧
    (0 ≤ (_calculate_metric_scores cpu plr rtt tier).1 ∧
      (_calculate_metric_scores cpu plr rtt tier).1 ≤ 100) ∧
    (0 ≤ (_calculate_metric_scores cpu plr rtt tier).2.1 ∧
      (_calculate_metric_scores cpu plr rtt tier).2.1 ≤ 100) ∧
    (0 ≤ (_calculate_metric_scores cpu plr rtt tier).2.2 ∧
      (_calculate_metric_scores cpu plr rtt tier).2.2 ≤ 100) ∧
    (cpu = (tier_config_get tier).cpu_threshold →
      (_calculate_metric_scores cpu plr rtt tier).1 = 0) ∧
    (plr = (tier_config_get tier).plr_threshold →
      (_calculate_metric_scores cpu plr rtt tier).2.1 = 0) ∧
    (rtt = (tier_config_get tier).rtt_threshold →
      (_calculate_metric_scores cpu plr rtt tier).2.2 = 0) ∧
    (cpu = 0 → (_calculate_metric_scores cpu plr rtt tier).1 = 100) ∧
    (plr = 0 → (_calculate_metric_scores cpu plr rtt tier).2.1 = 100) ∧
    (rtt = 0 → (_calculate_metric_scores cpu plr rtt tier).2.2 = 100) := by
  obtain ⟨hc, hp, hr⟩ := tier_config_get_pos tier
  unfold _calculate_metric_scores
  dsimp only
  refine ⟨rfl, ⟨?_, ?_⟩, ⟨?_, ?_⟩, ⟨?_, ?_⟩, ?_, ?_, ?_, ?_, ?_, ?_⟩
  · exact le_max_left 0 _
  · exact max_le (by norm_num) (min_le_left 100 _)
  · exact le_max_left 0 _
  · exact max_le (by norm_num) (min_le_left 100 _)
  · exact le_max_left 0 _
  · exact max_le (by norm_num) (min_le_left 100 _)
  · intro h
    rw [h, div_self hc.ne']
    norm_num
  · intro h
    rw [h, div_self hp.ne']
    norm_num
  · intro h
    rw [h, div_self hr.ne']
    norm_num
  · intro h
    rw [h, zero_div]
    norm_num
  · intro h
    rw [h, zero_div]
    norm_num
  · intro h
    rw [h, zero_div]
    norm_num

/-- C5: `_calculate_adaptive_threshold` returns
clamp(60 + criticality_multiplier·10 + (−20 if anomaly ≠ "none" else 0)
      + node criticality adjustment, 20, 95),
the node adjustment being 15/12/8/4/0 by the metadata criticality. -/
theorem adaptive_threshold_formula (node_metadata : NodeMetadata)
    (node_id tier anomaly_type : String) :
    _calculate_adaptive_threshold node_metadata node_id tier anomaly_type =
      max 20 (min 95
        (60 + (tier_config_get tier).criticality_multiplier * 10 +
          (if anomaly_type ≠ "none" then (-20 : ℚ) else 0) +
          (match node_metadata.lookup node_id with
           | none => (0 : ℚ)
           | some criticality =>
             if criticality = "Mission_Critical" then 15
             else if criticality = "Ultra_High" then 12
             else if criticality = "High" then 8
             else if criticality = "Medium" then 4
             else 0))) := by
  unfold _calculate_adaptive_threshold
  rfl

/-- C10: an anomaly tag outside the 11 keys of the impact table is scored
with the fallback factor 0.5, not the 1.0 used for "none": the weighted
score is multiplied by 1/2 before the final clamp to [0,100]. -/
theorem unknown_anomaly_fallback_factor (cpu plr rtt : ℚ) (tier tag : String)
    (h : tag ∉ anomaly_impact_keys) :
    anomaly_impact_get tag = 1/2 ∧
    anomaly_impact_get "none" = 1 ∧
    _calculate_weighted_health_score cpu plr rtt tier tag =
      max 0 (min 100
        (((_calculate_metric_scores cpu plr rtt tier).1 * (tier_config_get tier).w_cpu +
          (_calculate_metric_scores cpu plr rtt tier).2.1 * (tier_config_get tier).w_plr +
          (_calculate_metric_scores cpu plr rtt tier).2.2 * (tier_config_get tier).w_rtt)
          * (1/2))) := by
  simp only [anomaly_impact_keys, List.mem_cons, List.mem_singleton, not_or] at h
  obtain ⟨h1, h2, h3, h4, h5, h6, h7, h8, h9, h10, h11, -⟩ := h
  have himp : anomaly_impact_get tag = 1/2 := by
    unfold anomaly_impact_get
    rw [if_neg h1, if_neg h2, if_neg h3, if_neg h4, if_neg h5, if_neg h6,
      if_neg h7, if_neg h8, if_neg h9, if_neg h10, if_neg h11]
  refine ⟨himp, by norm_num [anomaly_impact_get], ?_⟩
  unfold _calculate_weighted_health_score
  rw [himp]

/-! ### EMA tracking state (`__init__`, lines 62–66, and `_update_ema_values`)

`self.ema_health_scores` and `self.ema_thresholds` are dicts keyed by node
id, modelled as `String → Option ℚ`; `self.ema_beta` is fixed at
construction (default 0.3).  `self.health_history` only accumulates a log
and is read by no claim, so it is not carried in the state. -/

structure HealthCalcState where
  ema_beta : ℚ
  node_metadata : NodeMetadata
  ema_health_scores : String → Option ℚ
  ema_thresholds : String → Option ℚ

/-- The state `NodeHealthCalculator.__init__(ema_beta)` builds: both EMA
dicts empty. -/
def initHealthCalc (ema_beta : ℚ) (node_metadata : NodeMetadata) : HealthCalcState :=
  ⟨ema_beta, node_metadata, fun _ => none, fun _ => none⟩

/-- `NodeHealthCalculator._update_ema_values` (lines 154–173).  The branch
is on `node_id not in self.ema_health_scores`; in the else branch the
source also indexes `self.ema_thresholds[node_id]`, which would raise
KeyError were that key absent — that unreachable raise is the `none`
result here. -/
def _update_ema_values (st : HealthCalcState) (node_id : String)
    (current_score current_threshold : ℚ) :
    Option ((ℚ × ℚ) × HealthCalcState) :=
  match st.ema_health_scores node_id with
  | none =>
    some ((current_score, current_threshold),
      { st with
        ema_health_scores := fun k =>
          if k = node_id then some current_score else st.ema_health_scores k,
        ema_thresholds := fun k =>
          if k = node_id then some current_threshold else st.ema_thresholds k })
  | some prev_score =>
    match st.ema_thresholds node_id with
    | none => none
    | some prev_threshold =>
      let new_score := st.ema_beta * current_score + (1 - st.ema_beta) * prev_score
      let new_threshold := st.ema_beta * current_threshold + (1 - st.ema_beta) * prev_threshold
      some ((new_score, new_threshold),
        { st with
          ema_health_scores := fun k =>
            if k = node_id then some new_score else st.ema_health_scores k,
          ema_thresholds := fun k =>
            if k = node_id then some new_threshold else st.ema_thresholds k })

/-- The rounded record `calculate_health_metrics` returns (lines 221–232). -/
structure HealthMetrics where
  health_threshold : ℚ
  weighted_health_score : ℚ
  ema_health_score : ℚ
  ema_health_threshold : ℚ
  health_status : ℚ
  tier : String
  cpu_subscore : ℚ
  plr_subscore : ℚ
  rtt_subscore : ℚ
  anomaly_type : String

/-- `NodeHealthCalculator.calculate_health_metrics` (lines 175–232), with
the sample's fields passed explicitly (the source reads them out of a dict
with defaults before any computation).  The history append is a pure log
and is omitted from the state. -/
def calculate_health_metrics (st : HealthCalcState) (node_id : String)
    (cpu plr rtt : ℚ) (anomaly_type : String) :
    Option (HealthMetrics × HealthCalcState) :=
  let tier := _get_node_tier node_id
  let health_threshold := _calculate_adaptive_threshold st.node_metadata node_id tier anomaly_type
  let weighted_health_score := _calculate_weighted_health_score cpu plr rtt tier anomaly_type
  match _update_ema_values st node_id weighted_health_score health_threshold with
  | none => none
  | some ((ema_score, ema_threshold), st') =>
    let health_status := ema_score - ema_threshold
    some (⟨roundq 2 health_threshold, roundq 2 weighted_health_score,
      roundq 2 ema_score, roundq 2 ema_threshold, roundq 2 health_status, tier,
      roundq 2 (_calculate_metric_scores cpu plr rtt tier).1,
      roundq 2 (_calculate_metric_scores cpu plr rtt tier).2.1,
      roundq 2 (_calculate_metric_scores cpu plr rtt tier).2.2,
      anomaly_type⟩, st')

/-- C3: the first `calculate_health_metrics` call for a node stores raw
score and raw threshold as the node's EMA values exactly (and the returned
rounded EMA fields coincide with the rounded raw fields); every subsequent
call updates each series independently by
ema = beta·raw + (1 − beta)·ema_prev with the constructed beta. -/
theorem ema_first_call_identity_and_recurrence (st : HealthCalcState)
    (node_id : String) (cpu plr rtt : ℚ) (anomaly_type : String) :
    (st.ema_health_scores node_id = none →
      ∃ m st', calculate_health_metrics st node_id cpu plr rtt anomaly_type = some (m, st') ∧
        st'.ema_health_scores node_id =
          some (_calculate_weighted_health_score cpu plr rtt (_get_node_tier node_id) anomaly_type) ∧
        st'.ema_thresholds node_id =
          some (_calculate_adaptive_threshold st.node_metadata node_id
            (_get_node_tier node_id) anomaly_type) ∧
        m.ema_health_score = m.weighted_health_score ∧
        m.ema_health_threshold = m.health_threshold) ∧
    (∀ prev_score prev_threshold,
      st.ema_health_scores node_id = some prev_score →
      st.ema_thresholds node_id = some prev_threshold →
      ∃ m st', calculate_health_metrics st node_id cpu plr rtt anomaly_type = some (m, st') ∧
        st'.ema_health_scores node_id =
          some (st.ema_beta *
              _calculate_weighted_health_score cpu plr rtt (_get_node_tier node_id) anomaly_type +
            (1 - st.ema_beta) * prev_score) ∧
        st'.ema_thresholds node_id =
          some (st.ema_beta *
              _calculate_adaptive_threshold st.node_metadata node_id
                (_get_node_tier node_id) anomaly_type +
            (1 - st.ema_beta) * prev_threshold)) := by
  constructor
  · intro hnone
    unfold calculate_health_metrics _update_ema_values
    rw [hnone]
    exact ⟨_, _, rfl, by simp, by simp, rfl, rfl⟩
  · intro prev_score prev_threshold hs ht
    unfold calculate_health_metrics _update_ema_values
    rw [hs, ht]
    exact ⟨_, _, rfl, by simp, by simp⟩

/-- C3 witness: a first call on the freshly constructed state (beta = 0.3)
stores the raw values, and a second call on a state already holding EMA
values 40 and 70 applies the recurrence. -/
theorem ema_first_call_identity_and_recurrence_witness :
    ∃ m st', calculate_health_metrics (initHealthCalc (3/10) []) "L1N_01" 50 (1/100) 100 "none" =
        some (m, st') ∧
      st'.ema_health_scores "L1N_01" =
        some (_calculate_weighted_health_score 50 (1/100) 100 (_get_node_tier "L1N_01") "none") ∧
      st'.ema_thresholds "L1N_01" =
        some (_calculate_adaptive_threshold [] "L1N_01" (_get_node_tier "L1N_01") "none") ∧
      m.ema_health_score = m.weighted_health_score ∧
      m.ema_health_threshold = m.health_threshold :=
  (ema_first_call_identity_and_recurrence (initHealthCalc (3/10) [])
    "L1N_01" 50 (1/100) 100 "none").1 rfl

/-- C10 witness: the concrete tag "sandstorm" is none of the 11 keys and is
scored with factor 1/2. -/
theorem unknown_anomaly_fallback_factor_witness :
    anomaly_impact_get "sandstorm" = 1/2 ∧
    anomaly_impact_get "none" = 1 ∧
    _calculate_weighted_health_score 50 (1/100) 100 "L1" "sandstorm" =
      max 0 (min 100
        (((_calculate_metric_scores 50 (1/100) 100 "L1").1 * (tier_config_get "L1").w_cpu +
          (_calculate_metric_scores 50 (1/100) 100 "L1").2.1 * (tier_config_get "L1").w_plr +
          (_calculate_metric_scores 50 (1/100) 100 "L1").2.2 * (tier_config_get "L1").w_rtt)
          * (1/2))) :=
  unknown_anomaly_fallback_factor 50 (1/100) 100 "L1" "sandstorm" (by decide)

/-! ## src/core/node_dispatcher.py -/

/-- A value of a sample record: a string or a number. -/
inductive PVal where
  | s (v : String)
  | q (v : ℚ)

/-- The outcome of one `get_node_sample` call:
* `indexError` — the metadata lookup
  `node_list[node_list['node_id'] == node_id].iloc[0]` at line 280 selects
  no row of a nonempty node list and raises IndexError; line 280 sits
  outside both try blocks, so this failure propagates to the caller;
* `generated` — the id's prefix dispatched to one of the numpy-seeded tier
  generators (pseudo-random float streams, outside this embedding);
* `defaultSample` — the fixed default record built at lines 301–316. -/
inductive NodeSampleResult where
  | indexError
  | generated
  | defaultSample (fields : List (String × PVal))

/-- The keys of a returned default record (empty for the other outcomes). -/
def sampleKeys : NodeSampleResult → List String
  | .defaultSample fields => fields.map Prod.fst
  | _ => []

/-- `get_node_sample` (lines 254–362).  `node_list` is the node_id column
of the metadata table the source receives (or loads when the argument is
None).  Line 280 computes the metadata row first: with a nonempty table
and no matching row, `.iloc[0]` raises IndexError — uncaught, since the
try blocks wrap only the index parse (285–288) and the generator dispatch
(292–348).  Then the prefix `node_id[:3]` selects a tier generator; any
other prefix returns the fixed default record.  The `df.empty` fallback
and the exception handler (lines 318–330, 349–362) build the identical
default record for generator-path ids.  In every default-building branch
the health-metric computation is commented out, so the record carries
exactly the six raw fields. -/
def get_node_sample (node_list : List String) (node_id base_time : String) :
    NodeSampleResult :=
  if node_list ≠ [] ∧ node_id ∉ node_list then .indexError
  else
    let pfx := node_id.take 3
    if pfx = "L1N" then .generated
    else if pfx = "L2N" then .generated
    else if pfx = "L3N" then .generated
    else if pfx = "L4N" then .generated
    else .defaultSample [("timestamp", .s base_time), ("node_id", .s node_id),
      ("cpu", .q 50), ("plr", .q (1/100)), ("rtt", .q 100), ("anomaly", .s "none")]

/-- The node_id column of the table `create_node_list`
(utils/node_utils.py, lines 12–147) builds — what `get_node_sample` loads
when its `node_list` argument is None: the cloud node, one L1 node, four
L2, twelve L3 and thirty-six L4 nodes. -/
def create_node_list_ids : List String :=
  ["CloudDB_Server", "L1N_01",
   "L2N_01", "L2N_02", "L2N_03", "L2N_04",
   "L3N_01", "L3N_02", "L3N_03", "L3N_04", "L3N_05", "L3N_06",
   "L3N_07", "L3N_08", "L3N_09", "L3N_10", "L3N_11", "L3N_12",
   "L4N_01", "L4N_02", "L4N_03", "L4N_04", "L4N_05", "L4N_06",
   "L4N_07", "L4N_08", "L4N_09", "L4N_10", "L4N_11", "L4N_12",
   "L4N_13", "L4N_14", "L4N_15", "L4N_16", "L4N_17", "L4N_18",
   "L4N_19", "L4N_20", "L4N_21", "L4N_22", "L4N_23", "L4N_24",
   "L4N_25", "L4N_26", "L4N_27", "L4N_28", "L4N_29", "L4N_30",
   "L4N_31", "L4N_32", "L4N_33", "L4N_34", "L4N_35", "L4N_36"]

/-- C7 counterexample, against the default-flow node list: for the
unknown-prefix id "Cloud_DB", which has no row in the table, the uncaught
IndexError of line 280 propagates — no default sample, no health metrics;
and for the unknown-prefix id "CloudDB_Server", which does have a row, the
dispatcher returns exactly the six raw default fields (cpu 50, plr 0.01,
rtt 100, anomaly "none") with no health-metric field at all — no
"health_threshold", "weighted_health_score" or "ema_health_score" key.
Both outcomes contradict the claim that every unknown-prefix id gets the
default tuple plus correctly computed health metrics instead of a
failure. -/
theorem unknown_node_has_no_health_fields :
    get_node_sample create_node_list_ids "Cloud_DB" "2024-01-01T00:00:00+00:00" =
      .indexError ∧
    get_node_sample create_node_list_ids "CloudDB_Server" "2024-01-01T00:00:00+00:00" =
      .defaultSample [("timestamp", .s "2024-01-01T00:00:00+00:00"),
        ("node_id", .s "CloudDB_Server"), ("cpu", .q 50), ("plr", .q (1/100)),
        ("rtt", .q 100), ("anomaly", .s "none")] ∧
    sampleKeys (get_node_sample create_node_list_ids "CloudDB_Server"
        "2024-01-01T00:00:00+00:00") =
      ["timestamp", "node_id", "cpu", "plr", "rtt", "anomaly"] ∧
    "health_threshold" ∉ sampleKeys (get_node_sample create_node_list_ids
      "CloudDB_Server" "2024-01-01T00:00:00+00:00") ∧
    "weighted_health_score" ∉ sampleKeys (get_node_sample create_node_list_ids
      "CloudDB_Server" "2024-01-01T00:00:00+00:00") ∧
    "ema_health_score" ∉ sampleKeys (get_node_sample create_node_list_ids
      "CloudDB_Server" "2024-01-01T00:00:00+00:00") :=
  ⟨rfl, rfl, rfl, by decide, by decide, by decide⟩

/-- C7 (amended): for every node id whose three-character prefix is not
one of L1N, L2N, L3N, L4N and which survives the metadata lookup of line
280 (the node list is empty or contains the id), `get_node_sample`
returns the fixed default sample cpu = 50.0, plr = 0.01, rtt = 100.0,
anomaly = "none" with the given base timestamp — and nothing else: no
health-metric fields are attached.  An unknown-prefix id absent from a
nonempty node list instead raises IndexError (see the counterexample). -/
theorem unknown_node_default_sample (node_list : List String)
    (node_id base_time : String)
    (hmeta : node_list = [] ∨ node_id ∈ node_list)
    (h1 : node_id.take 3 ≠ "L1N") (h2 : node_id.take 3 ≠ "L2N")
    (h3 : node_id.take 3 ≠ "L3N") (h4 : node_id.take 3 ≠ "L4N") :
    get_node_sample node_list node_id base_time =
      .defaultSample [("timestamp", .s base_time), ("node_id", .s node_id),
        ("cpu", .q 50), ("plr", .q (1/100)), ("rtt", .q 100), ("anomaly", .s "none")] := by
  unfold get_node_sample
  have hcond : ¬(node_list ≠ [] ∧ node_id ∉ node_list) := by
    rcases hmeta with h | h
    · simp [h]
    · exact fun hc => hc.2 h
  rw [if_neg hcond]
  dsimp only
  rw [if_neg h1, if_neg h2, if_neg h3, if_neg h4]

/-- C7 witness: the amended default at the concrete id "CloudDB_Server",
which is in the default-flow node list and has an unrecognised prefix. -/
theorem unknown_node_default_sample_witness :
    get_node_sample create_node_list_ids "CloudDB_Server" "t0" =
      .defaultSample [("timestamp", .s "t0"), ("node_id", .s "CloudDB_Server"),
        ("cpu", .q 50), ("plr", .q (1/100)), ("rtt", .q 100), ("anomaly", .s "none")] :=
  unknown_node_default_sample create_node_list_ids "CloudDB_Server" "t0"
    (Or.inr (by decide)) (by decide) (by decide) (by decide) (by decide)

/-- One emitted telemetry row (timestamp and node-id bookkeeping omitted). -/
structure Sample where
  cpu : ℚ
  plr : ℚ
  rtt : ℚ
  anomaly : String

/-- The pseudo-random draws one L1 tick consumes, as model inputs: the
per-node trends, the gaussian/beta noise realisations, the fault draw
`node_rng.random()` and the uniform anomaly pick `node_rng.choice(...)`. -/
structure L1Draws where
  cpu_trend : ℚ
  plr_trend : ℚ
  rtt_trend : ℚ
  cpu_noise1 : ℚ
  cpu_noise2 : ℚ
  plr_beta : ℚ
  plr_noise2 : ℚ
  rtt_noise1 : ℚ
  rtt_noise2 : ℚ
  fault_draw : ℚ
  anomaly_pick : String

/-- One iteration of the inner loop of `generate_l1_node_samples`
(lines 30–70): base value + trend·t + noise, `np.clip`, then the
fault/anomaly override, then the `round(_, 2/4/2)` of the appended row.
`np.clip(x, lo, hi)` is `max lo (min hi x)`. -/
def l1_tick (t : ℕ) (fault_rate : ℚ) (d : L1Draws) : Sample :=
  let cpu_base := 30 + d.cpu_trend * t + d.cpu_noise1 + d.cpu_noise2
  let plr_base := 1/1000 + d.plr_trend * t + d.plr_beta * (1/100) + d.plr_noise2
  let rtt_base := 70 + d.rtt_trend * t + d.rtt_noise1 + d.rtt_noise2
  let cpu := max 10 (min 25 cpu_base)
  let plr := max 0 (min (1/100) plr_base)
  let rtt := max 25 (min 70 rtt_base)
  if d.fault_draw < fault_rate then
    if d.anomaly_pick = "overload" then
      ⟨roundq 2 100, roundq 4 (2/10), roundq 2 400, d.anomaly_pick⟩
    else if d.anomaly_pick = "routing_loop" then
      ⟨roundq 2 cpu, roundq 4 (5/10), roundq 2 999, d.anomaly_pick⟩
    else if d.anomaly_pick = "fibre_cut" ∨ d.anomaly_pick = "silence" then
      ⟨roundq 2 0, roundq 4 1, roundq 2 999, d.anomaly_pick⟩
    else ⟨roundq 2 cpu, roundq 4 plr, roundq 2 rtt, d.anomaly_pick⟩
  else ⟨roundq 2 cpu, roundq 4 plr, roundq 2 rtt, "none"⟩

/-- C8: whenever the fault draw fires and the anomaly picked is
"overload", the emitted L1 sample is exactly cpu = 100, plr = 0.2,
rtt = 400, whatever the trend and noise draws were. -/
theorem l1_overload_override_exact (t : ℕ) (fault_rate : ℚ) (d : L1Draws)
    (hfault : d.fault_draw < fault_rate) (hpick : d.anomaly_pick = "overload") :
    l1_tick t fault_rate d = ⟨100, 2/10, 400, "overload"⟩ := by
  unfold l1_tick
  dsimp only
  rw [if_pos hfault, hpick, if_pos rfl]
  have h1 : roundq 2 100 = 100 := by norm_num [roundq, roundHalfEven]
  have h2 : roundq 4 (2/10) = 2/10 := by norm_num [roundq, roundHalfEven]
  have h3 : roundq 2 400 = 400 := by norm_num [roundq, roundHalfEven]
  rw [h1, h2, h3]

/-- C8 witness: concrete draws with the fault firing on "overload". -/
theorem l1_overload_override_exact_witness :
    l1_tick 0 (5/10000) ⟨0, 0, 0, 1, 1, 1, 1, 1, 1, 0, "overload"⟩ =
      ⟨100, 2/10, 400, "overload"⟩ :=
  l1_overload_override_exact 0 (5/10000) ⟨0, 0, 0, 1, 1, 1, 1, 1, 1, 0, "overload"⟩
    (by norm_num) rfl

/-- The pseudo-random draws one `generate_gradual_degradation` call
consumes, as model inputs.  The three degradation deltas are drawn from
normals centred on the accelerated rates; the centre is kept in the
definition and the zero-mean noise realisation is the input, so the
realised delta is centre + noise (same support, ℝ, as the source's
`rng.normal(loc, scale)`). -/
structure DegDraws where
  cpu_noise : ℚ
  plr_noise : ℚ
  rtt_noise : ℚ
  improv_draw : ℚ
  improvement_factor : ℚ
  stress_mult : ℚ

/-- The record `generate_gradual_degradation` returns (lines 486–497);
cycle and node id are just echoed back and omitted here. -/
structure DegOut where
  cpu : ℚ
  plr : ℚ
  rtt : ℚ
  anomaly_type : String
  severity_score : ℚ
  degradation_trend : ℚ
  cumulative_factor : ℚ
  improvement_applied : Bool

/-- `generate_gradual_degradation` (lines 365–497). -/
def generate_gradual_degradation (cycle : ℕ) (d : DegDraws) (cpu plr rtt : ℚ) : DegOut :=
  let cycle_factor : ℚ := 1 + (cycle : ℚ) * (1/1000)
  let cpu_degrade_base := 12/1000 * cycle_factor
  let plr_degrade_base := 15/1000 * cycle_factor
  let rtt_degrade_base := 8/1000 * cycle_factor
  let cpu_acceleration := 1 + cpu / 200
  let plr_acceleration := 1 + plr / 50
  let rtt_acceleration := 1 + rtt / 500
  let cpu_degradation := max (1/1000) (cpu_degrade_base * cpu_acceleration + d.cpu_noise)
  let plr_degradation := max (1/1000) (plr_degrade_base * plr_acceleration + d.plr_noise)
  let rtt_degradation := max (1/1000) (rtt_degrade_base * rtt_acceleration + d.rtt_noise)
  let base_cpu := cpu * (1 + cpu_degradation)
  let base_plr := plr * (1 + plr_degradation)
  let base_rtt := rtt * (1 + rtt_degradation)
  let improvement_applied := d.improv_draw < 15/100
  let base_cpu := if improvement_applied
    then max (cpu * (9/10)) (base_cpu * d.improvement_factor) else base_cpu
  let base_plr := if improvement_applied
    then max (plr * (9/10)) (base_plr * d.improvement_factor) else base_plr
  let base_rtt := if improvement_applied
    then max (rtt * (9/10)) (base_rtt * d.improvement_factor) else base_rtt
  let base_cpu := if cycle % 20 = 0 then min 100 (base_cpu * d.stress_mult) else base_cpu
  let base_plr := if cycle % 20 = 0 then min 100 (base_plr * d.stress_mult) else base_plr
  let base_rtt := if cycle % 20 = 0 then base_rtt * d.stress_mult else base_rtt
  let cumulative_degradation : ℚ := 1 + (cycle : ℚ) * (5/10000)
  let degraded_cpu := min 100 (base_cpu * cumulative_degradation)
  let degraded_plr := min 100 (base_plr * cumulative_degradation)
  let degraded_rtt := base_rtt * cumulative_degradation
  let cpu_severity := max 0 (min 1 ((degraded_cpu - 50) / 50))
  let plr_severity := max 0 (min 1 ((degraded_plr - 3) / 20))
  let rtt_severity := max 0 (min 1 ((degraded_rtt - 80) / 150))
  let severity_score := 4/10 * cpu_severity + 35/100 * plr_severity + 25/100 * rtt_severity
  let anomaly_type :=
    if severity_score > 8/10 then "critical_degradation"
    else if severity_score > 6/10 then "severe_degradation"
    else if severity_score > 4/10 then "moderate_degradation"
    else if severity_score > 2/10 then "mild_degradation"
    else if severity_score > 5/100 then "early_degradation"
    else "normal"
  let anomaly_type := if improvement_applied ∧ severity_score < 6/10
    then "temporary_recovery" else anomaly_type
  let avg_trend : ℚ :=
    if 0 < cycle then
      ((degraded_cpu - cpu) / max cpu 1 * 100 + (degraded_plr - plr) / max plr (1/10) * 100 +
        (degraded_rtt - rtt) / max rtt 1 * 100) / 3
    else 0
  ⟨roundq 2 degraded_cpu, roundq 3 degraded_plr, roundq 1 degraded_rtt,
    anomaly_type, roundq 3 severity_score, roundq 2 avg_trend,
    roundq 4 cumulative_degradation, decide improvement_applied⟩

/-- C9 counterexample: cycle 1, cpu input 22501/2250 ≈ 10.00044, plr 1,
rtt 100, with the improvement event firing (draw 0 < 0.15), factor 0.85
and the degradation noises forced to the floor.  The improvement clamp
binds at exactly 0.9·cpu = 9.0004, the cumulative factor lifts it to
9.0049002, and the final round(·, 2) returns 9.00 < 9.0004: the returned
cpu IS reduced below 90% of the input value. -/
theorem gradual_degradation_below_ninety_percent :
    (generate_gradual_degradation 1 ⟨-1, -1, -1, 0, 85/100, 11/10⟩
        (22501/2250) 1 100).cpu <
      9/10 * (22501/2250) := by
  norm_num [generate_gradual_degradation, roundq, roundHalfEven,
    max_def, min_def]

theorem deg_floor_capped_stress (x B s c e1 e2 : ℚ) (hx0 : 0 ≤ x) (hx1 : x ≤ 100)
    (hs : 1 ≤ s) (hc : 1 ≤ c) (he : e2 ≤ e1) :
    9/10 * x - e1 ≤ min 100 (min 100 (max (x * (9/10)) B * s) * c) - e2 := by
  have hx90 : (0:ℚ) ≤ x * (9/10) := mul_nonneg hx0 (by norm_num)
  have h90 : x * (9/10) ≤ 100 := by linarith
  have h2 : x * (9/10) ≤ max (x * (9/10)) B := le_max_left _ _
  have h20 : (0:ℚ) ≤ max (x * (9/10)) B := le_trans hx90 h2
  have h3 : x * (9/10) ≤ max (x * (9/10)) B * s :=
    le_trans h2 (le_mul_of_one_le_right h20 hs)
  have h4 : x * (9/10) ≤ min 100 (max (x * (9/10)) B * s) := le_min h90 h3
  have h40 : (0:ℚ) ≤ min 100 (max (x * (9/10)) B * s) := le_trans hx90 h4
  have h5 : x * (9/10) ≤ min 100 (min 100 (max (x * (9/10)) B * s) * c) :=
    le_min h90 (le_trans h4 (le_mul_of_one_le_right h40 hc))
  linarith

theorem deg_floor_capped (x B c e1 e2 : ℚ) (hx0 : 0 ≤ x) (hx1 : x ≤ 100)
    (hc : 1 ≤ c) (he : e2 ≤ e1) :
    9/10 * x - e1 ≤ min 100 (max (x * (9/10)) B * c) - e2 := by
  have hx90 : (0:ℚ) ≤ x * (9/10) := mul_nonneg hx0 (by norm_num)
  have h90 : x * (9/10) ≤ 100 := by linarith
  have h2 : x * (9/10) ≤ max (x * (9/10)) B := le_max_left _ _
  have h20 : (0:ℚ) ≤ max (x * (9/10)) B := le_trans hx90 h2
  have h3 : x * (9/10) ≤ max (x * (9/10)) B * c :=
    le_trans h2 (le_mul_of_one_le_right h20 hc)
  have h4 : x * (9/10) ≤ min 100 (max (x * (9/10)) B * c) := le_min h90 h3
  linarith

theorem deg_floor_uncapped_stress (x B s c e1 e2 : ℚ) (hx0 : 0 ≤ x)
    (hs : 1 ≤ s) (hc : 1 ≤ c) (he : e2 ≤ e1) :
    9/10 * x - e1 ≤ max (x * (9/10)) B * s * c - e2 := by
  have hx90 : (0:ℚ) ≤ x * (9/10) := mul_nonneg hx0 (by norm_num)
  have h2 : x * (9/10) ≤ max (x * (9/10)) B := le_max_left _ _
  have h20 : (0:ℚ) ≤ max (x * (9/10)) B := le_trans hx90 h2
  have h3 : x * (9/10) ≤ max (x * (9/10)) B * s :=
    le_trans h2 (le_mul_of_one_le_right h20 hs)
  have h30 : (0:ℚ) ≤ max (x * (9/10)) B * s := le_trans hx90 h3
  have h4 : x * (9/10) ≤ max (x * (9/10)) B * s * c :=
    le_trans h3 (le_mul_of_one_le_right h30 hc)
  linarith

theorem deg_floor_uncapped (x B c e1 e2 : ℚ) (hx0 : 0 ≤ x)
    (hc : 1 ≤ c) (he : e2 ≤ e1) :
    9/10 * x - e1 ≤ max (x * (9/10)) B * c - e2 := by
  have hx90 : (0:ℚ) ≤ x * (9/10) := mul_nonneg hx0 (by norm_num)
  have h2 : x * (9/10) ≤ max (x * (9/10)) B := le_max_left _ _
  have h20 : (0:ℚ) ≤ max (x * (9/10)) B := le_trans hx90 h2
  have h3 : x * (9/10) ≤ max (x * (9/10)) B * c :=
    le_trans h2 (le_mul_of_one_le_right h20 hc)
  linarith

/-- C9 (amended): when the 15%-probability improvement event fires, with
inputs in their documented ranges (cpu, plr in [0,100], rtt ≥ 0) and a
stress multiplier ≥ 1, no metric is reduced below 90% of its input before
the final rounding, so each returned metric is at least 90% of its input
minus half of its rounding step (0.005 for cpu, 0.0005 for plr, 0.05 for
rtt). -/
theorem gradual_degradation_improvement_floor (cycle : ℕ) (d : DegDraws)
    (cpu plr rtt : ℚ) (himp : d.improv_draw < 15/100)
    (hcpu0 : 0 ≤ cpu) (hcpu1 : cpu ≤ 100)
    (hplr0 : 0 ≤ plr) (hplr1 : plr ≤ 100)
    (hrtt0 : 0 ≤ rtt) (hstress : 1 ≤ d.stress_mult) :
    9/10 * cpu - 1/200 ≤ (generate_gradual_degradation cycle d cpu plr rtt).cpu ∧
    9/10 * plr - 1/2000 ≤ (generate_gradual_degradation cycle d cpu plr rtt).plr ∧
    9/10 * rtt - 1/20 ≤ (generate_gradual_degradation cycle d cpu plr rtt).rtt := by
  have hcum : (1:ℚ) ≤ 1 + (cycle : ℚ) * (5/10000) := by
    have : (0:ℚ) ≤ (cycle : ℚ) := Nat.cast_nonneg cycle
    linarith
  unfold generate_gradual_degradation
  dsimp only
  rw [if_pos himp, if_pos himp, if_pos himp]
  by_cases hc : cycle % 20 = 0
  · simp only [if_pos hc]
    refine ⟨?_, ?_, ?_⟩
    · refine le_trans ?_ (roundq_ge 2 _).le
      exact deg_floor_capped_stress cpu _ _ _ _ _ hcpu0 hcpu1 hstress hcum (by norm_num)
    · refine le_trans ?_ (roundq_ge 3 _).le
      exact deg_floor_capped_stress plr _ _ _ _ _ hplr0 hplr1 hstress hcum (by norm_num)
    · refine le_trans ?_ (roundq_ge 1 _).le
      exact deg_floor_uncapped_stress rtt _ _ _ _ _ hrtt0 hstress hcum (by norm_num)
  · simp only [if_neg hc]
    refine ⟨?_, ?_, ?_⟩
    · refine le_trans ?_ (roundq_ge 2 _).le
      exact deg_floor_capped cpu _ _ _ _ hcpu0 hcpu1 hcum (by norm_num)
    · refine le_trans ?_ (roundq_ge 3 _).le
      exact deg_floor_capped plr _ _ _ _ hplr0 hplr1 hcum (by norm_num)
    · refine le_trans ?_ (roundq_ge 1 _).le
      exact deg_floor_uncapped rtt _ _ _ _ hrtt0 hcum (by norm_num)

/-- C9 witness for the amended claim: concrete inputs with the improvement
event firing at cycle 0. -/
theorem gradual_degradation_improvement_floor_witness :
    9/10 * 50 - 1/200 ≤
      (generate_gradual_degradation 0 ⟨0, 0, 0, 0, 9/10, 11/10⟩ 50 1 100).cpu ∧
    9/10 * 1 - 1/2000 ≤
      (generate_gradual_degradation 0 ⟨0, 0, 0, 0, 9/10, 11/10⟩ 50 1 100).plr ∧
    9/10 * 100 - 1/20 ≤
      (generate_gradual_degradation 0 ⟨0, 0, 0, 0, 9/10, 11/10⟩ 50 1 100).rtt :=
  gradual_degradation_improvement_floor 0 ⟨0, 0, 0, 0, 9/10, 11/10⟩ 50 1 100
    (by norm_num) (by norm_num) (by norm_num) (by norm_num) (by norm_num)
    (by norm_num) (by norm_num)

/-! ## src/utils/node_utils.py — fogNodeCharacterisation

Running per-node statistics (Welford) and the z-score health metric.
The per-metric sigma the source stores is
`max(sqrt(abs(variance)), MIN_SIGMA)` — an irrational number in general —
so the state tracks its square instead: squaring is strictly monotone on
nonnegatives, so `sigmaSq = max(abs(variance), MIN_SIGMA^2)` carries
exactly the same information and every comparison of sigmas is the same
comparison of their squares. -/

inductive Metric where
  | PLR
  | TTL
  | CPU
  | Accuracy

/-- `self.MIN_SIGMA` (lines 228–233). -/
def MIN_SIGMA : Metric → ℚ
  | .PLR => 1/1000
  | .TTL => 1/10
  | .CPU => 1/10
  | .Accuracy => 1/10

/-- `self.INITIAL_SIGMA` (lines 236–241). -/
def INITIAL_SIGMA : Metric → ℚ
  | .PLR => 5/1000
  | .TTL => 10
  | .CPU => 5
  | .Accuracy => 2

/-- One entry of `self.node_stats[node_id][metric]`: n, mu, sum_sq as in
the source, sigma represented by its square. -/
structure MetricStats where
  n : ℕ
  mu : ℚ
  sum_sq : ℚ
  sigmaSq : ℚ

/-- One metric's slice of `_initialise_node_stats` (lines 356–363):
n = 0, mu = 0, sum_sq = 0, sigma = INITIAL_SIGMA[metric]. -/
def initMetricStats (m : Metric) : MetricStats :=
  ⟨0, 0, 0, (INITIAL_SIGMA m) ^ 2⟩

/-- The per-metric body of the loop in `muAndsigma_per_node`
(lines 264–278): the Welford update, then
sigma = max(sqrt(abs(sum_sq/(n−1))), MIN_SIGMA) for n > 1 (tracked
squared) and sigma = INITIAL_SIGMA for n == 1. -/
def updateStat (m : Metric) (s : MetricStats) (x : ℚ) : MetricStats :=
  let n := s.n + 1
  let delta := x - s.mu
  let mu := s.mu + delta / n
  let delta2 := x - mu
  let sum_sq := s.sum_sq + delta * delta2
  let sigmaSq :=
    if 1 < n then max |sum_sq / ((n : ℚ) - 1)| ((MIN_SIGMA m) ^ 2)
    else (INITIAL_SIGMA m) ^ 2
  ⟨n, mu, sum_sq, sigmaSq⟩

/-- `self.node_stats[node_id]`: the three tracked metrics. -/
structure NodeStats where
  PLR : MetricStats
  TTL : MetricStats
  CPU : MetricStats

def initNodeStats : NodeStats :=
  ⟨initMetricStats .PLR, initMetricStats .TTL, initMetricStats .CPU⟩

/-- The loop of `muAndsigma_per_node` over the three (metric, value)
pairs. -/
def nodeStep (ns : NodeStats) (new_plr new_ttl new_cpu : ℚ) : NodeStats :=
  ⟨updateStat .PLR ns.PLR new_plr, updateStat .TTL ns.TTL new_ttl,
    updateStat .CPU ns.CPU new_cpu⟩

/-- The mutable state of a `fogNodeCharacterisation` instance:
`self.node_stats` and `self.node_sample_counts` (a defaultdict(int)), the
constructor arguments WEIGHTS and ALPHA, and `self.ema_health` — which
`__init__` (lines 205–246) never assigns, hence `none` on a fresh
instance; an access while it is `none` is Python's AttributeError. -/
structure CharState where
  node_stats : String → Option NodeStats
  node_sample_counts : String → ℕ
  WEIGHTS_PLR : ℚ
  WEIGHTS_TTL : ℚ
  WEIGHTS_CPU : ℚ
  ALPHA : ℚ
  ema_health : Option (String → Option ℚ)

/-- `fogNodeCharacterisation.__init__` with no persisted stats file:
empty node_stats, zero sample counts, and no `ema_health` attribute. -/
def initCharState (wp wt wc alpha : ℚ) : CharState :=
  ⟨fun _ => none, fun _ => 0, wp, wt, wc, alpha, none⟩

/-- `self.warmup_samples` (line 243). -/
def warmup_samples : ℕ := 5

/-- `fogNodeCharacterisation.muAndsigma_per_node` (lines 250–286):
initialise stats for an unseen node, bump its sample count, and run the
Welford update on each of PLR, TTL, CPU. -/
def muAndsigma_per_node (st : CharState) (node_id : String)
    (new_plr new_ttl new_cpu : ℚ) : CharState :=
  let prev := (st.node_stats node_id).getD initNodeStats
  { st with
    node_stats := fun k =>
      if k = node_id then some (nodeStep prev new_plr new_ttl new_cpu)
      else st.node_stats k,
    node_sample_counts := fun k =>
      if k = node_id then st.node_sample_counts k + 1
      else st.node_sample_counts k }

/-- A sequence of `muAndsigma_per_node` calls, each one
(node_id, plr, ttl, cpu). -/
def runObs (st : CharState) (calls : List (String × ℚ × ℚ × ℚ)) : CharState :=
  calls.foldl (fun s c => muAndsigma_per_node s c.1 c.2.1 c.2.2.1 c.2.2.2) st

/-- `fogNodeCharacterisation.healthMetric` (lines 288–322): floor the
given sigmas, z-score each metric (the source computes the z block twice,
the second `!= 0` guard is the effective one), take the weighted sum h,
and past the warm-up count smooth h through `self.ema_health` — whose
access raises AttributeError (the `none` result) on an instance whose
constructor never created it. -/
def healthMetric (st : CharState) (node_id : String)
    (plr ttl cpu plr_mean plr_std ttl_mean ttl_std cpu_mean cpu_std : ℚ) :
    Option (ℚ × CharState) :=
  let plr_std := max plr_std (MIN_SIGMA .PLR)
  let ttl_std := max ttl_std (MIN_SIGMA .TTL)
  let cpu_std := max cpu_std (MIN_SIGMA .CPU)
  let z_plr := if plr_std ≠ 0 then (plr - plr_mean) / plr_std else 0
  let z_ttl := if ttl_std ≠ 0 then (ttl - ttl_mean) / ttl_std else 0
  let z_cpu := if cpu_std ≠ 0 then (cpu - cpu_mean) / cpu_std else 0
  let h := st.WEIGHTS_PLR * z_plr + st.WEIGHTS_TTL * z_ttl + st.WEIGHTS_CPU * z_cpu
  if warmup_samples < st.node_sample_counts node_id then
    match st.ema_health with
    | none => none
    | some store =>
      match store node_id with
      | none =>
        some (h, { st with ema_health := some (fun k =>
          if k = node_id then some h else store k) })
      | some prev =>
        let v := st.ALPHA * h + (1 - st.ALPHA) * prev
        some (v, { st with ema_health := some (fun k =>
          if k = node_id then some v else store k) })
  else some (h, st)

/-- The MIN_SIGMA floor is below the INITIAL_SIGMA start, squared. -/
theorem initial_sigma_ge_min (m : Metric) :
    (MIN_SIGMA m) ^ 2 ≤ (INITIAL_SIGMA m) ^ 2 := by
  cases m <;> norm_num [MIN_SIGMA, INITIAL_SIGMA]

theorem updateStat_sigma_floor (m : Metric) (s : MetricStats) (x : ℚ) :
    (MIN_SIGMA m) ^ 2 ≤ (updateStat m s x).sigmaSq := by
  unfold updateStat
  dsimp only
  split
  · exact le_max_right _ _
  · exact initial_sigma_ge_min m

/-- The sigma-floor invariant: every tracked node's stored sigma is at
least MIN_SIGMA of its metric (squared form). -/
def sigmaFloorInv (st : CharState) : Prop :=
  ∀ node ns, st.node_stats node = some ns →
    (MIN_SIGMA .PLR) ^ 2 ≤ ns.PLR.sigmaSq ∧
    (MIN_SIGMA .TTL) ^ 2 ≤ ns.TTL.sigmaSq ∧
    (MIN_SIGMA .CPU) ^ 2 ≤ ns.CPU.sigmaSq

theorem muAndsigma_preserves_sigma_floor (st : CharState) (node_id : String)
    (p t c : ℚ) (h : sigmaFloorInv st) :
    sigmaFloorInv (muAndsigma_per_node st node_id p t c) := by
  intro node ns hns
  unfold muAndsigma_per_node at hns
  dsimp only at hns
  by_cases hnode : node = node_id
  · rw [if_pos hnode] at hns
    cases hns
    exact ⟨updateStat_sigma_floor _ _ _, updateStat_sigma_floor _ _ _,
      updateStat_sigma_floor _ _ _⟩
  · rw [if_neg hnode] at hns
    exact h node ns hns

/-- C6: after any sequence of `muAndsigma_per_node` calls on a fresh
instance, every stored per-node sigma is ≥ MIN_SIGMA of its metric
(stated on the squares, which is equivalent on nonnegatives), whatever
the observed values — including all-identical, zero-variance input — and
however many samples each node has seen. -/
theorem sigma_floor_always (wp wt wc alpha : ℚ)
    (calls : List (String × ℚ × ℚ × ℚ)) (node : String) (ns : NodeStats)
    (h : (runObs (initCharState wp wt wc alpha) calls).node_stats node = some ns) :
    (MIN_SIGMA .PLR) ^ 2 ≤ ns.PLR.sigmaSq ∧
    (MIN_SIGMA .TTL) ^ 2 ≤ ns.TTL.sigmaSq ∧
    (MIN_SIGMA .CPU) ^ 2 ≤ ns.CPU.sigmaSq := by
  have base : sigmaFloorInv (initCharState wp wt wc alpha) := by
    intro n ns' hns'
    exact absurd hns' (by simp [initCharState])
  have run : ∀ (cs : List (String × ℚ × ℚ × ℚ)) (st : CharState),
      sigmaFloorInv st → sigmaFloorInv (runObs st cs) := by
    intro cs
    induction cs with
    | nil => intro st hst; exact hst
    | cons c rest ih =>
      intro st hst
      exact ih _ (muAndsigma_preserves_sigma_floor st c.1 c.2.1 c.2.2.1 c.2.2.2 hst)
  exact run calls _ base node ns h

/-- C6 witness: a two-call run on one node with identical zero-variance
observations; the stored sigmas still sit at their floors. -/
theorem sigma_floor_always_witness :
    (runObs (initCharState (3/10) (3/10) (4/10) (1/2))
        [("L2N_01", 1, 2, 3), ("L2N_01", 1, 2, 3)]).node_stats "L2N_01" =
      some (nodeStep (nodeStep initNodeStats 1 2 3) 1 2 3) ∧
    ((MIN_SIGMA .PLR) ^ 2 ≤ (nodeStep (nodeStep initNodeStats 1 2 3) 1 2 3).PLR.sigmaSq ∧
      (MIN_SIGMA .TTL) ^ 2 ≤ (nodeStep (nodeStep initNodeStats 1 2 3) 1 2 3).TTL.sigmaSq ∧
      (MIN_SIGMA .CPU) ^ 2 ≤ (nodeStep (nodeStep initNodeStats 1 2 3) 1 2 3).CPU.sigmaSq) :=
  ⟨rfl, sigma_floor_always (3/10) (3/10) (4/10) (1/2)
    [("L2N_01", 1, 2, 3), ("L2N_01", 1, 2, 3)] "L2N_01" _ rfl⟩

/-! ### C1: the incremental statistics match the batch computation

Spec-side definitions (the direct batch computation the spec describes):
sample mean, sum of squared deviations, Bessel-corrected variance. -/

/-- One metric's column folded through the Welford update from the
initialised stats: the maintained state after the column's observations. -/
def statRun (m : Metric) (xs : List ℚ) : MetricStats :=
  xs.foldl (updateStat m) (initMetricStats m)

/-- Spec-side batch sample mean. -/
def batchMean (xs : List ℚ) : ℚ := xs.sum / xs.length

/-- Spec-side sum of squared deviations from a centre c. -/
def sqDevSum (xs : List ℚ) (c : ℚ) : ℚ := (xs.map (fun y => (y - c) ^ 2)).sum

/-- Spec-side Bessel-corrected sample variance (the square of the batch
standard deviation). -/
def besselVariance (xs : List ℚ) : ℚ :=
  sqDevSum xs (batchMean xs) / ((xs.length : ℚ) - 1)

theorem sqDevSum_cons (y : ℚ) (ys : List ℚ) (c : ℚ) :
    sqDevSum (y :: ys) c = (y - c) ^ 2 + sqDevSum ys c := by
  simp [sqDevSum]

theorem sqDevSum_append_singleton (xs : List ℚ) (x c : ℚ) :
    sqDevSum (xs ++ [x]) c = sqDevSum xs c + (x - c) ^ 2 := by
  simp [sqDevSum]

theorem sqDevSum_nonneg (xs : List ℚ) (c : ℚ) : 0 ≤ sqDevSum xs c := by
  induction xs with
  | nil => exact le_refl 0
  | cons y ys ih =>
    rw [sqDevSum_cons]
    exact add_nonneg (sq_nonneg _) ih

/-- Recentering a sum of squared deviations. -/
theorem sqDevSum_shift (xs : List ℚ) (a b : ℚ) :
    sqDevSum xs b =
      sqDevSum xs a + 2 * (a - b) * (xs.sum - xs.length * a) +
        xs.length * (a - b) ^ 2 := by
  induction xs with
  | nil => simp [sqDevSum]
  | cons y ys ih =>
    rw [sqDevSum_cons, sqDevSum_cons, ih, List.sum_cons, List.length_cons]
    push_cast
    ring

/-- `(updateStat m s x).sigmaSq`, read back through the updated fields. -/
theorem updateStat_sigmaSq (m : Metric) (s : MetricStats) (x : ℚ) :
    (updateStat m s x).sigmaSq =
      if 1 < (updateStat m s x).n then
        max |(updateStat m s x).sum_sq / (((updateStat m s x).n : ℚ) - 1)|
          ((MIN_SIGMA m) ^ 2)
      else (INITIAL_SIGMA m) ^ 2 := rfl

/-- The Welford invariant: after any column, the maintained count is the
column length, the maintained mean times the length is the column sum, and
the maintained sum_sq is the sum of squared deviations from the maintained
mean. -/
theorem statRun_spec (m : Metric) (xs : List ℚ) :
    (statRun m xs).n = xs.length ∧
    (statRun m xs).mu * (xs.length : ℚ) = xs.sum ∧
    (statRun m xs).sum_sq = sqDevSum xs (statRun m xs).mu := by
  induction xs using List.reverseRecOn with
  | nil => exact ⟨rfl, by simp [statRun, initMetricStats], rfl⟩
  | append_singleton ys x ih =>
    have hstep : statRun m (ys ++ [x]) = updateStat m (statRun m ys) x := by
      unfold statRun
      rw [List.foldl_append]
      rfl
    obtain ⟨hn, hmu, hss⟩ := ih
    rw [hstep]
    unfold updateStat
    dsimp only
    have hcast : (((statRun m ys).n + 1 : ℕ) : ℚ) = (ys.length : ℚ) + 1 := by
      rw [hn]
      push_cast
      ring
    have hL1 : ((ys.length : ℚ) + 1) ≠ 0 := by positivity
    have hlen : ((ys ++ [x]).length : ℚ) = (ys.length : ℚ) + 1 := by
      simp
    refine ⟨by simp [hn], ?_, ?_⟩
    · rw [hcast, hlen]
      have hexp : ((statRun m ys).mu + (x - (statRun m ys).mu) / ((ys.length : ℚ) + 1)) *
          ((ys.length : ℚ) + 1) = (statRun m ys).mu * (ys.length : ℚ) + x := by
        field_simp
        ring
      rw [hexp, hmu, List.sum_append]
      simp
    · rw [hcast, sqDevSum_append_singleton,
        sqDevSum_shift ys (statRun m ys).mu
          ((statRun m ys).mu + (x - (statRun m ys).mu) / ((ys.length : ℚ) + 1)),
        ← hmu, ← hss]
      field_simp
      ring

/-- The maintained statistics of one column versus the batch computation:
the mean matches exactly; for two or more observations the (squared) sigma
is the Bessel-corrected batch variance floored at MIN_SIGMA (squared); for
exactly one observation it is the fixed INITIAL_SIGMA (squared). -/
theorem statRun_batch (m : Metric) (xs : List ℚ) (hxs : xs ≠ []) :
    (statRun m xs).mu = batchMean xs ∧
    (2 ≤ xs.length →
      (statRun m xs).sigmaSq = max (besselVariance xs) ((MIN_SIGMA m) ^ 2)) ∧
    (xs.length = 1 → (statRun m xs).sigmaSq = (INITIAL_SIGMA m) ^ 2) := by
  obtain hnil | ⟨ys, x, hconcat⟩ := xs.eq_nil_or_concat
  · exact absurd hnil hxs
  · rw [List.concat_eq_append] at hconcat
    subst hconcat
    obtain ⟨hn, hmu, hss⟩ := statRun_spec m (ys ++ [x])
    have hlen0 : (ys ++ [x]).length ≠ 0 := fun hl => hxs (List.length_eq_zero.mp hl)
    have hlenQ : (((ys ++ [x]).length : ℚ)) ≠ 0 := Nat.cast_ne_zero.mpr hlen0
    have hmu' : (statRun m (ys ++ [x])).mu = batchMean (ys ++ [x]) := by
      unfold batchMean
      rw [eq_div_iff hlenQ]
      exact hmu
    have hstep : statRun m (ys ++ [x]) = updateStat m (statRun m ys) x := by
      unfold statRun
      rw [List.foldl_append]
      rfl
    have hsig := updateStat_sigmaSq m (statRun m ys) x
    rw [← hstep, hn] at hsig
    refine ⟨hmu', ?_, ?_⟩
    · intro h2
      have h1 : 1 < (ys ++ [x]).length := h2
      rw [if_pos h1] at hsig
      have hnum : 0 ≤ (statRun m (ys ++ [x])).sum_sq := by
        rw [hss]
        exact sqDevSum_nonneg _ _
      have hden : (0:ℚ) ≤ ((ys ++ [x]).length : ℚ) - 1 := by
        have : (1:ℚ) ≤ ((ys ++ [x]).length : ℚ) := by exact_mod_cast h1.le
        linarith
      rw [abs_of_nonneg (div_nonneg hnum hden), hss, hmu'] at hsig
      rw [hsig]
      unfold besselVariance
      rfl
    · intro h1
      have : ¬ 1 < (ys ++ [x]).length := by omega
      rw [if_neg this] at hsig
      exact hsig

/-- Each column's fold is one component of the three-metric fold. -/
theorem nodeFold_components (obs : List (ℚ × ℚ × ℚ)) (ns : NodeStats) :
    obs.foldl (fun a o => nodeStep a o.1 o.2.1 o.2.2) ns =
      ⟨(obs.map (·.1)).foldl (updateStat .PLR) ns.PLR,
       (obs.map (·.2.1)).foldl (updateStat .TTL) ns.TTL,
       (obs.map (·.2.2)).foldl (updateStat .CPU) ns.CPU⟩ := by
  induction obs generalizing ns with
  | nil => rfl
  | cons o rest ih =>
    simp only [List.foldl_cons, List.map_cons]
    exact ih _

/-- Feeding a nonempty observation sequence of a single node through
`muAndsigma_per_node` stores the per-node fold. -/
theorem runObs_single_node (obs : List (ℚ × ℚ × ℚ)) (st : CharState)
    (node : String) (hobs : obs ≠ []) :
    (runObs st (obs.map (fun o => (node, o)))).node_stats node =
      some (obs.foldl (fun a o => nodeStep a o.1 o.2.1 o.2.2)
        ((st.node_stats node).getD initNodeStats)) := by
  induction obs generalizing st with
  | nil => exact absurd rfl hobs
  | cons o rest ih =>
    have hlook : (muAndsigma_per_node st node o.1 o.2.1 o.2.2).node_stats node =
        some (nodeStep ((st.node_stats node).getD initNodeStats) o.1 o.2.1 o.2.2) := by
      unfold muAndsigma_per_node
      dsimp only
      rw [if_pos rfl]
    cases rest with
    | nil =>
      show (muAndsigma_per_node st node o.1 o.2.1 o.2.2).node_stats node = _
      rw [hlook]
      rfl
    | cons o2 rest2 =>
      have step : runObs st ((o :: o2 :: rest2).map (fun o => (node, o))) =
          runObs (muAndsigma_per_node st node o.1 o.2.1 o.2.2)
            ((o2 :: rest2).map (fun o => (node, o))) := rfl
      rw [step, ih _ (by simp), hlook]
      rfl

/-- C1: feeding any node any ordered nonempty observation sequence, the
maintained per-metric mean equals the batch sample mean of that metric's
column; with at least 2 observations the maintained sigma is the
Bessel-corrected batch standard deviation floored at MIN_SIGMA (stated on
squares: sigmaSq = max(batch variance, MIN_SIGMA²), equivalent since
squaring is monotone on nonnegatives); with exactly one observation sigma
is the INITIAL_SIGMA constant — never zero, and over ℚ never undefined. -/
theorem welford_running_stats_match_batch (wp wt wc alpha : ℚ)
    (obs : List (ℚ × ℚ × ℚ)) (node : String) (hobs : obs ≠ []) :
    ∃ ns, (runObs (initCharState wp wt wc alpha)
        (obs.map (fun o => (node, o)))).node_stats node = some ns ∧
      ns.PLR.mu = batchMean (obs.map (·.1)) ∧
      ns.TTL.mu = batchMean (obs.map (·.2.1)) ∧
      ns.CPU.mu = batchMean (obs.map (·.2.2)) ∧
      (2 ≤ obs.length →
        ns.PLR.sigmaSq = max (besselVariance (obs.map (·.1))) ((MIN_SIGMA .PLR) ^ 2) ∧
        ns.TTL.sigmaSq = max (besselVariance (obs.map (·.2.1))) ((MIN_SIGMA .TTL) ^ 2) ∧
        ns.CPU.sigmaSq = max (besselVariance (obs.map (·.2.2))) ((MIN_SIGMA .CPU) ^ 2)) ∧
      (obs.length = 1 →
        ns.PLR.sigmaSq = (INITIAL_SIGMA .PLR) ^ 2 ∧
        ns.TTL.sigmaSq = (INITIAL_SIGMA .TTL) ^ 2 ∧
        ns.CPU.sigmaSq = (INITIAL_SIGMA .CPU) ^ 2) := by
  have hmain : (runObs (initCharState wp wt wc alpha)
      (obs.map (fun o => (node, o)))).node_stats node =
      some ⟨statRun .PLR (obs.map (·.1)), statRun .TTL (obs.map (·.2.1)),
        statRun .CPU (obs.map (·.2.2))⟩ := by
    rw [runObs_single_node obs _ node hobs, nodeFold_components]
    rfl
  have hP := statRun_batch .PLR (obs.map (·.1)) (by simpa using hobs)
  have hT := statRun_batch .TTL (obs.map (·.2.1)) (by simpa using hobs)
  have hC := statRun_batch .CPU (obs.map (·.2.2)) (by simpa using hobs)
  simp only [List.length_map] at hP hT hC
  exact ⟨_, hmain, hP.1, hT.1, hC.1,
    fun h2 => ⟨hP.2.1 h2, hT.2.1 h2, hC.2.1 h2⟩,
    fun h1 => ⟨hP.2.2 h1, hT.2.2 h1, hC.2.2 h1⟩⟩

/-- C1 witness: the ordered two-observation sequence (1,2,3), (3,6,9) on
node "A". -/
theorem welford_running_stats_match_batch_witness :
    ∃ ns, (runObs (initCharState (3/10) (3/10) (4/10) (1/2))
        ([((1:ℚ), (2:ℚ), (3:ℚ)), (3, 6, 9)].map (fun o => ("A", o)))).node_stats "A" =
        some ns ∧
      ns.PLR.mu = batchMean ([((1:ℚ), (2:ℚ), (3:ℚ)), (3, 6, 9)].map (·.1)) ∧
      ns.TTL.mu = batchMean ([((1:ℚ), (2:ℚ), (3:ℚ)), (3, 6, 9)].map (·.2.1)) ∧
      ns.CPU.mu = batchMean ([((1:ℚ), (2:ℚ), (3:ℚ)), (3, 6, 9)].map (·.2.2)) ∧
      (2 ≤ ([((1:ℚ), (2:ℚ), (3:ℚ)), (3, 6, 9)] : List (ℚ × ℚ × ℚ)).length →
        ns.PLR.sigmaSq =
          max (besselVariance ([((1:ℚ), (2:ℚ), (3:ℚ)), (3, 6, 9)].map (·.1)))
            ((MIN_SIGMA .PLR) ^ 2) ∧
        ns.TTL.sigmaSq =
          max (besselVariance ([((1:ℚ), (2:ℚ), (3:ℚ)), (3, 6, 9)].map (·.2.1)))
            ((MIN_SIGMA .TTL) ^ 2) ∧
        ns.CPU.sigmaSq =
          max (besselVariance ([((1:ℚ), (2:ℚ), (3:ℚ)), (3, 6, 9)].map (·.2.2)))
            ((MIN_SIGMA .CPU) ^ 2)) ∧
      (([((1:ℚ), (2:ℚ), (3:ℚ)), (3, 6, 9)] : List (ℚ × ℚ × ℚ)).length = 1 →
        ns.PLR.sigmaSq = (INITIAL_SIGMA .PLR) ^ 2 ∧
        ns.TTL.sigmaSq = (INITIAL_SIGMA .TTL) ^ 2 ∧
        ns.CPU.sigmaSq = (INITIAL_SIGMA .CPU) ^ 2) :=
  welford_running_stats_match_batch (3/10) (3/10) (4/10) (1/2)
    [((1:ℚ), (2:ℚ), (3:ℚ)), (3, 6, 9)] "A" (by simp)

/-- The state after six observations of one node on a fresh instance:
the sample count has passed the warm-up threshold and `ema_health` still
does not exist. -/
def afterSixSamples : CharState :=
  runObs (initCharState (3/10) (3/10) (4/10) (1/2))
    (List.replicate 6 ("L4N_01", 1, 2, 3))

/-- C4: the first `healthMetric` call for a node past the warm-up count
does not return the seeded or smoothed EMA value the claim describes —
it hits `self.ema_health`, which `__init__` never created, and raises
AttributeError (the `none` result of the model).  Before or at the
warm-up count the raw weighted z-score sum is returned unsmoothed. -/
theorem healthMetric_warmup_attribute_error :
    afterSixSamples.node_sample_counts "L4N_01" = 6 ∧
    warmup_samples < afterSixSamples.node_sample_counts "L4N_01" ∧
    afterSixSamples.ema_health = none ∧
    healthMetric afterSixSamples "L4N_01" 1 2 3 0 1 0 1 0 1 = none :=
  ⟨rfl, by decide, rfl, rfl⟩

end FogMonitor
